import Mathlib

/-!
Verification of src/core/tagreaderclient.cpp (Clementine's TagReaderClient
and its BroadcastReply), as a shallow embedding in Lean 4.

Conventions of the embedding:
* Qt/protobuf library types that the file only passes through are modelled
  structurally: a QString is a Lean String, a repeated protobuf field is a
  List, a QMap keyed by QString is a function from String to Option.
* The worker pool (workerpool.h, not part of this file) is modelled as an
  environment that maps a sent request message to the reply (or, for a
  broadcast, the list of replies) that the pool hands back.
* Q_ASSERT is modelled by returning an Except value: Except.error when the
  asserted condition is false, Except.ok with the function's result
  otherwise.  A function containing no Q_ASSERT always returns Except.ok.
-/

/-- Outcome of an AssertFail: the single way a modelled function aborts,
corresponding to a failed Q_ASSERT in the C++ source. -/
inductive AssertFail where
  | assertionFailed
deriving DecidableEq, Repr

/-- The protobuf image of a Song (pb::tagreader::SongMetadata); its
contents are opaque to tagreaderclient.cpp, so it is a bare wrapper. -/
structure SongPB where
  bytes : List Nat
deriving DecidableEq, Repr

/-- The Song class (core/song.h, external to this file): the client only
uses Song::ToProtobuf and Song::url().toLocalFile(), so the model keeps
exactly the data those two calls produce. -/
structure Song where
  toPB : SongPB
  urlLocalFile : String
deriving DecidableEq, Repr

/-- Models Song::ToProtobuf (external to this file): serialises the song
into its protobuf image. -/
def Song.ToProtobuf (s : Song) : SongPB := s.toPB

/-- One entry of pb::tagreader::NetworkStatisticsResponse: a url together
with the number of bytes received from it. -/
structure NetEntry where
  url : String
  bytes_received : Int
deriving DecidableEq, Repr

/-- The response half of pb::tagreader::Message, with the fields that
tagreaderclient.cpp reads out of worker replies. -/
structure Message where
  read_file_response_metadata : SongPB
  save_file_response_success : Bool
  save_song_statistics_to_file_response_success : Bool
  save_song_rating_to_file_response_success : Bool
  is_media_file_response_success : Bool
  load_embedded_art_response_data : List Nat
  network_statistics_response_entries : List NetEntry
deriving DecidableEq, Repr

/-- The request half of pb::tagreader::Message: exactly one request field
is set by each async form in tagreaderclient.cpp. -/
inductive RequestPayload where
  | readFileRequest (filename : String)
  | saveFileRequest (filename : String) (metadata : SongPB)
  | saveSongStatisticsToFileRequest (filename : String) (metadata : SongPB)
  | saveSongRatingToFileRequest (filename : String) (metadata : SongPB)
  | isMediaFileRequest (filename : String)
  | loadEmbeddedArtRequest (filename : String)
  | readCloudFileRequest (download_url : String) (title : String)
      (size : Int) (mime_type : String) (authorisation_header : String)
  | networkStatisticsRequest
deriving DecidableEq, Repr

/-- Which WorkerPool send operation an async form uses. -/
inductive DispatchKind where
  | sendMessageWithReply
  | broadcastMessageWithReply
deriving DecidableEq, Repr

/-- TagReaderClient::kWorkerExecutableName. -/
def kWorkerExecutableName : String := "clementine-tagreader"

/-- The state a TagReaderClient holds through its worker pool: the
configured executable name and worker count (set in the constructor). -/
structure TagReaderClientState where
  executableName : String
  workerCount : Nat
deriving DecidableEq, Repr

/-- The TagReaderClient constructor: configures the pool with the fixed
executable name and the ideal thread count. -/
def TagReaderClientConstruct (idealThreadCount : Nat) : TagReaderClientState :=
  { executableName := kWorkerExecutableName, workerCount := idealThreadCount }

/-- TagReaderClient::WorkerFailedToStart: logs an error naming the worker
executable and returns with the client state untouched.  The returned list
is the sequence of strings streamed into qLog(Error). -/
def WorkerFailedToStart (s : TagReaderClientState) :
    Except AssertFail (TagReaderClientState × List String) :=
  Except.ok (s,
    ["The", kWorkerExecutableName, "executable was not found",
     "in the current directory or on the PATH.  Clementine will",
     "not be able to read music file tags without it."])

/-- TagReaderClient::ReadFile: builds a message whose read_file_request is
set and sends it point-to-point via SendMessageWithReply. -/
def ReadFile (filename : String) : RequestPayload × DispatchKind :=
  (RequestPayload.readFileRequest filename, DispatchKind.sendMessageWithReply)

/-- TagReaderClient::SaveFile: save_file_request with filename and the
protobuf of the metadata, sent point-to-point. -/
def SaveFile (filename : String) (metadata : Song) : RequestPayload × DispatchKind :=
  (RequestPayload.saveFileRequest filename metadata.ToProtobuf,
   DispatchKind.sendMessageWithReply)

/-- TagReaderClient::UpdateSongStatistics: save_song_statistics_to_file_request
with the song's local-file path and protobuf, sent point-to-point. -/
def UpdateSongStatistics (metadata : Song) : RequestPayload × DispatchKind :=
  (RequestPayload.saveSongStatisticsToFileRequest metadata.urlLocalFile
     metadata.ToProtobuf,
   DispatchKind.sendMessageWithReply)

/-- TagReaderClient::UpdateSongRating: save_song_rating_to_file_request
with the song's local-file path and protobuf, sent point-to-point. -/
def UpdateSongRating (metadata : Song) : RequestPayload × DispatchKind :=
  (RequestPayload.saveSongRatingToFileRequest metadata.urlLocalFile
     metadata.ToProtobuf,
   DispatchKind.sendMessageWithReply)

/-- TagReaderClient::IsMediaFile: is_media_file_request, point-to-point. -/
def IsMediaFile (filename : String) : RequestPayload × DispatchKind :=
  (RequestPayload.isMediaFileRequest filename, DispatchKind.sendMessageWithReply)

/-- TagReaderClient::LoadEmbeddedArt: load_embedded_art_request,
point-to-point. -/
def LoadEmbeddedArt (filename : String) : RequestPayload × DispatchKind :=
  (RequestPayload.loadEmbeddedArtRequest filename,
   DispatchKind.sendMessageWithReply)

/-- TagReaderClient::ReadCloudFile: read_cloud_file_request carrying the
download url, title, size, MIME type and authorisation header,
point-to-point. -/
def ReadCloudFile (download_url : String) (title : String) (size : Int)
    (mime_type : String) (authorisation_header : String) :
    RequestPayload × DispatchKind :=
  (RequestPayload.readCloudFileRequest download_url title size mime_type
     authorisation_header,
   DispatchKind.sendMessageWithReply)

/-- TagReaderClient::GetNetworkStatistics: builds a message whose
network_statistics_request is set (it carries no arguments) and sends it
via BroadcastMessageWithReply; the resulting replies are wrapped in a
BroadcastReply. -/
def GetNetworkStatistics : RequestPayload × DispatchKind :=
  (RequestPayload.networkStatisticsRequest,
   DispatchKind.broadcastMessageWithReply)

/-! ## BroadcastReply -/

/-- The observable state of one member TagReaderReply: its is_finished
and is_successful flags, which are what BroadcastReply reads. -/
structure MemberState where
  is_finished : Bool
  is_successful : Bool
deriving DecidableEq, Repr

/-- The count_if over the members' is_finished flags computed inside
BroadcastReply::IsFinished. -/
def countFinished (rs : List MemberState) : Nat :=
  (rs.filter fun r => r.is_finished).length

/-- BroadcastReply::IsFinished: finished members == all members. -/
def broadcastIsFinished (rs : List MemberState) : Bool :=
  countFinished rs == rs.length

/-- The count_if over the members' is_successful flags computed inside the
constructor's completion closure. -/
def countSuccessful (rs : List MemberState) : Nat :=
  (rs.filter fun r => r.is_successful).length

/-- The closure the BroadcastReply constructor attaches to each member's
Finished signal: when IsFinished holds it emits Finished with
successes == count(members); otherwise it emits nothing. -/
def memberFinishedClosure (rs : List MemberState) : Option Bool :=
  if broadcastIsFinished rs then some (countSuccessful rs == rs.length)
  else none

/-- A member reply resolving: member i transitions to Finished carrying
success flag s (a TagReaderReply resolves exactly once). -/
def resolveMember (rs : List MemberState) (i : Nat) (s : Bool) :
    List MemberState :=
  rs.set i { is_finished := true, is_successful := s }

/-- One resolution step observed by the BroadcastReply: member i resolves
with success s, then the attached closure runs over the updated members;
the result is the updated member states and the Finished emission, if
any. -/
def broadcastOnResolve (rs : List MemberState) (i : Nat) (s : Bool) :
    List MemberState × Option Bool :=
  let rs2 := resolveMember rs i s
  (rs2, memberFinishedClosure rs2)

/-- The bool BroadcastReply::WaitForFinished returns, namely IsFinished().
Modelled from the spec: WaitForSignal (core/waitforsignal.h, not under
src/) suspends the calling thread until the reply's resolution, and a wait
on a reply that is already resolved returns without suspending (the spec's
no-missed-wakeup guarantee); the model evaluates the return value at the
point the wait completes. -/
def broadcastWaitForFinished (rs : List MemberState) : Bool :=
  broadcastIsFinished rs

/-! ## Helper lemmas -/

theorem filter_length_eq_length_iff {α : Type} (p : α → Bool) (rs : List α) :
    (rs.filter p).length = rs.length ↔ ∀ x ∈ rs, p x = true := by
  induction rs with
  | nil => simp
  | cons a l ih =>
    by_cases h : p a = true
    · simp [List.filter_cons, h, ih]
    · have hle := List.length_filter_le p l
      constructor
      · intro hlen
        rw [List.filter_cons, if_neg (by simpa using h)] at hlen
        simp only [List.length_cons] at hlen
        omega
      · intro hall
        exact absurd (hall a (List.mem_cons_self a l)) h

theorem filter_length_beq_length {α : Type} (p : α → Bool) (rs : List α) :
    ((rs.filter p).length == rs.length) = rs.all p := by
  rw [Bool.eq_iff_iff]
  simp only [beq_iff_eq, List.all_eq_true]
  exact filter_length_eq_length_iff p rs

/-! ## The blocking wrappers -/

/-- What a caller observes of one TagReaderReply after issuing a request:
the bool WaitForFinished() returned and the reply's response message. -/
structure ReplyOutcome where
  wait_ok : Bool
  msg : Message
deriving DecidableEq, Repr

/-- The worker pool as seen by the blocking wrappers: SendMessageWithReply
yields one reply per request message, BroadcastMessageWithReply yields one
reply per worker. -/
structure PoolEnv where
  sendReply : RequestPayload → ReplyOutcome
  broadcastReplies : RequestPayload → List ReplyOutcome

/-- TagReaderClient::ReadFileBlocking: asserts it is off the client's
thread, issues ReadFile, waits, and initialises the caller's Song from
read_file_response().metadata() only if the wait succeeded.
Song::InitFromProtobuf lives outside this file, so it is passed in as
initFromPB (old song and metadata to new song). -/
def ReadFileBlocking (initFromPB : Song → SongPB → Song) (env : PoolEnv)
    (onClientThread : Bool) (filename : String) (song : Song) :
    Except AssertFail Song :=
  if onClientThread then Except.error AssertFail.assertionFailed
  else
    let reply := env.sendReply (ReadFile filename).1
    Except.ok (if reply.wait_ok then
        initFromPB song reply.msg.read_file_response_metadata
      else song)

/-- TagReaderClient::SaveFileBlocking: asserts, issues SaveFile, waits,
and returns save_file_response().success() on a successful wait, the
initial ret = false otherwise. -/
def SaveFileBlocking (env : PoolEnv) (onClientThread : Bool)
    (filename : String) (metadata : Song) : Except AssertFail Bool :=
  if onClientThread then Except.error AssertFail.assertionFailed
  else
    let reply := env.sendReply (SaveFile filename metadata).1
    Except.ok (if reply.wait_ok then reply.msg.save_file_response_success
      else false)

/-- TagReaderClient::UpdateSongStatisticsBlocking. -/
def UpdateSongStatisticsBlocking (env : PoolEnv) (onClientThread : Bool)
    (metadata : Song) : Except AssertFail Bool :=
  if onClientThread then Except.error AssertFail.assertionFailed
  else
    let reply := env.sendReply (UpdateSongStatistics metadata).1
    Except.ok (if reply.wait_ok then
        reply.msg.save_song_statistics_to_file_response_success
      else false)

/-- TagReaderClient::UpdateSongRatingBlocking. -/
def UpdateSongRatingBlocking (env : PoolEnv) (onClientThread : Bool)
    (metadata : Song) : Except AssertFail Bool :=
  if onClientThread then Except.error AssertFail.assertionFailed
  else
    let reply := env.sendReply (UpdateSongRating metadata).1
    Except.ok (if reply.wait_ok then
        reply.msg.save_song_rating_to_file_response_success
      else false)

/-- TagReaderClient::IsMediaFileBlocking. -/
def IsMediaFileBlocking (env : PoolEnv) (onClientThread : Bool)
    (filename : String) : Except AssertFail Bool :=
  if onClientThread then Except.error AssertFail.assertionFailed
  else
    let reply := env.sendReply (IsMediaFile filename).1
    Except.ok (if reply.wait_ok then reply.msg.is_media_file_response_success
      else false)

/-- A QImage as tagreaderclient.cpp uses it: none is the null image
produced by the default constructor, some d an image decoded from bytes
d.  QImage::loadFromData is Qt library code, so the decoder is a
parameter. -/
def QImage : Type := Option (List Nat)

/-- TagReaderClient::LoadEmbeddedArtBlocking: asserts, issues
LoadEmbeddedArt, waits, and loads the returned QImage from
load_embedded_art_response().data() only on a successful wait; otherwise
the default-constructed (null) image is returned. -/
def LoadEmbeddedArtBlocking (decode : List Nat → QImage) (env : PoolEnv)
    (onClientThread : Bool) (filename : String) : Except AssertFail QImage :=
  if onClientThread then Except.error AssertFail.assertionFailed
  else
    let reply := env.sendReply (LoadEmbeddedArt filename).1
    Except.ok (if reply.wait_ok then
        decode reply.msg.load_embedded_art_response_data
      else (none : QImage))

/-! ## Network statistics aggregation -/

/-- Models QUrl authority extraction (Qt library code): drops everything
up to and including the scheme separator. -/
def dropScheme : List Char → List Char
  | [] => []
  | ':' :: '/' :: '/' :: rest => rest
  | _ :: rest => dropScheme rest

/-- Models QUrl::authority() (Qt library code, external to this
repository): the authority component of a hierarchical URL, that is the
host:port part standing between the scheme separator and the first path,
query or fragment delimiter; a URL with no scheme separator has an empty
authority. -/
def urlAuthority (url : String) : String :=
  String.mk ((dropScheme url.data).takeWhile fun c =>
    !(c == '/') && !(c == '?') && !(c == '#'))

/-- The empty QMap of request counts by host. -/
def emptyRequests : String → Option Nat := fun _ => none

/-- The empty QMap of bytes received by host. -/
def emptyBytes : String → Option Int := fun _ => none

/-- The body of the aggregation loop in
TagReaderClient::GetNetworkStatisticsBlocking, for one entry: compute the
url's authority, then increment requests_by_host (or insert 1) and add
bytes_received into bytes_received_by_host (or insert it). -/
def aggregateStep (authority : String → String)
    (maps : (String → Option Nat) × (String → Option Int))
    (entry : NetEntry) : (String → Option Nat) × (String → Option Int) :=
  let host := authority entry.url
  let requests : String → Option Nat :=
    match maps.1 host with
    | some n => fun h => if h == host then some (n + 1) else maps.1 h
    | none => fun h => if h == host then some 1 else maps.1 h
  let bytes : String → Option Int :=
    match maps.2 host with
    | some b => fun h => if h == host then some (b + entry.bytes_received)
        else maps.2 h
    | none => fun h => if h == host then some entry.bytes_received
        else maps.2 h
  (requests, bytes)

/-- The whole aggregation loop of GetNetworkStatisticsBlocking: fold the
step over the merged entry list starting from empty maps. -/
def aggregateStatistics (authority : String → String)
    (entries : List NetEntry) :
    (String → Option Nat) × (String → Option Int) :=
  entries.foldl (aggregateStep authority) (emptyRequests, emptyBytes)

/-- The MergeFrom loop of GetNetworkStatisticsBlocking: merging every
member reply's network_statistics_response concatenates their repeated
entry fields. -/
def mergedEntries (replies : List ReplyOutcome) : List NetEntry :=
  (replies.map fun r => r.msg.network_statistics_response_entries).flatten

/-- TagReaderClient::GetNetworkStatisticsBlocking: broadcasts the
network-statistics request, waits on the BroadcastReply, merges every
member response and aggregates per host.  The source contains no Q_ASSERT
on the current thread, so the result is Except.ok whatever the calling
thread; the aggregated maps (which the source logs) are returned. -/
def GetNetworkStatisticsBlocking (authority : String → String)
    (env : PoolEnv) (onClientThread : Bool) :
    Except AssertFail ((String → Option Nat) × (String → Option Int)) :=
  let _ := onClientThread
  let replies := env.broadcastReplies GetNetworkStatistics.1
  Except.ok (aggregateStatistics authority (mergedEntries replies))

/-! ## The BroadcastReply object and its operations -/

/-- The fields of a BroadcastReply object: the request message it was
constructed with and the replies_ list, here a list of member reply
identities whose mutable flags live in an external environment (in C++
the list holds pointers to the member TagReaderReply objects). -/
structure BroadcastReplyObj where
  request_message : RequestPayload
  members : List Nat
deriving DecidableEq, Repr

/-- The BroadcastReply constructor: stores the request message and the
member list; nothing is ever added to or removed from members
afterwards. -/
def mkBroadcastReply (request_message : RequestPayload)
    (replies : List Nat) : BroadcastReplyObj :=
  { request_message := request_message, members := replies }

/-- The operations that run against a constructed BroadcastReply: a
member reply resolving (running the attached closure), the replies()
accessor, WaitForFinished, and the private IsFinished. -/
inductive BroadcastOp where
  | memberResolved (i : Nat) (s : Bool)
  | repliesAccessor
  | waitForFinished
  | isFinishedQuery
deriving DecidableEq, Repr

/-- Effect of one BroadcastReply operation on the object and on the
environment holding each member reply's flags: resolution of member i
updates that member's flags in the environment; every operation leaves
the object itself, its members list included, untouched. -/
def applyBroadcastOp (br : BroadcastReplyObj) (env : Nat → MemberState) :
    BroadcastOp → BroadcastReplyObj × (Nat → MemberState)
  | BroadcastOp.memberResolved i s =>
      (br, fun id => if br.members.get? i = some id then
          { is_finished := true, is_successful := s }
        else env id)
  | BroadcastOp.repliesAccessor => (br, env)
  | BroadcastOp.waitForFinished => (br, env)
  | BroadcastOp.isFinishedQuery => (br, env)

/-! ## Aggregation lemmas -/

theorem aggregateStep_requests_self (authority : String → String)
    (init : (String → Option Nat) × (String → Option Int)) (e : NetEntry)
    (host : String) (heq : authority e.url = host) :
    (aggregateStep authority init e).1 host =
      some ((init.1 host).getD 0 + 1) := by
  subst heq
  unfold aggregateStep
  cases hm : init.1 (authority e.url) with
  | some n => simp [hm]
  | none => simp [hm]

theorem aggregateStep_requests_other (authority : String → String)
    (init : (String → Option Nat) × (String → Option Int)) (e : NetEntry)
    (host : String) (hne : authority e.url ≠ host) :
    (aggregateStep authority init e).1 host = init.1 host := by
  have hb : (host == authority e.url) = false :=
    beq_eq_false_iff_ne.mpr (Ne.symm hne)
  unfold aggregateStep
  cases hm : init.1 (authority e.url) with
  | some n => simp [hm, hb]
  | none => simp [hm, hb]

theorem aggregateStep_bytes_self (authority : String → String)
    (init : (String → Option Nat) × (String → Option Int)) (e : NetEntry)
    (host : String) (heq : authority e.url = host) :
    (aggregateStep authority init e).2 host =
      some ((init.2 host).getD 0 + e.bytes_received) := by
  subst heq
  unfold aggregateStep
  cases hm : init.2 (authority e.url) with
  | some b => simp [hm]
  | none => simp [hm]

theorem aggregateStep_bytes_other (authority : String → String)
    (init : (String → Option Nat) × (String → Option Int)) (e : NetEntry)
    (host : String) (hne : authority e.url ≠ host) :
    (aggregateStep authority init e).2 host = init.2 host := by
  have hb : (host == authority e.url) = false :=
    beq_eq_false_iff_ne.mpr (Ne.symm hne)
  unfold aggregateStep
  cases hm : init.2 (authority e.url) with
  | some b => simp [hm, hb]
  | none => simp [hm, hb]

theorem aggregate_foldl_spec (authority : String → String)
    (entries : List NetEntry) :
    ∀ (init : (String → Option Nat) × (String → Option Int)) (host : String),
    (entries.foldl (aggregateStep authority) init).1 host =
      (if (entries.filter fun e => authority e.url == host).length = 0
       then init.1 host
       else some ((init.1 host).getD 0 +
         (entries.filter fun e => authority e.url == host).length)) ∧
    (entries.foldl (aggregateStep authority) init).2 host =
      (if (entries.filter fun e => authority e.url == host).length = 0
       then init.2 host
       else some ((init.2 host).getD 0 +
         (((entries.filter fun e => authority e.url == host).map
            fun e => e.bytes_received).sum))) := by
  induction entries with
  | nil => intro init host; simp
  | cons e es ih =>
    intro init host
    rw [List.foldl_cons]
    rcases ih (aggregateStep authority init e) host with ⟨ih1, ih2⟩
    by_cases heq : authority e.url = host
    · have hfilter : (e :: es).filter (fun x => authority x.url == host) =
          e :: es.filter (fun x => authority x.url == host) := by
        simp [List.filter_cons, heq]
      rw [hfilter]
      constructor
      · rw [ih1, aggregateStep_requests_self authority init e host heq]
        by_cases h0 : (es.filter fun x => authority x.url == host).length = 0
        · simp [h0]
        · simp [h0]
          omega
      · rw [ih2, aggregateStep_bytes_self authority init e host heq]
        by_cases h0 : (es.filter fun x => authority x.url == host).length = 0
        · have hnil : es.filter (fun x => authority x.url == host) = [] :=
            List.length_eq_zero.mp h0
          simp [hnil]
        · simp [h0]
          omega
    · have hfilter : (e :: es).filter (fun x => authority x.url == host) =
          es.filter (fun x => authority x.url == host) := by
        simp [List.filter_cons, beq_iff_eq, heq]
      rw [hfilter]
      rw [ih1, ih2, aggregateStep_requests_other authority init e host heq,
        aggregateStep_bytes_other authority init e host heq]
      exact ⟨rfl, rfl⟩

/-! ## Sample values used by concrete instances -/

/-- A response message with every field at its protobuf default. -/
def defaultMessage : Message :=
  { read_file_response_metadata := { bytes := [] },
    save_file_response_success := false,
    save_song_statistics_to_file_response_success := false,
    save_song_rating_to_file_response_success := false,
    is_media_file_response_success := false,
    load_embedded_art_response_data := [],
    network_statistics_response_entries := [] }

/-- A response message reporting success on every request kind. -/
def sampleMsg : Message :=
  { read_file_response_metadata := { bytes := [3] },
    save_file_response_success := true,
    save_song_statistics_to_file_response_success := true,
    save_song_rating_to_file_response_success := true,
    is_media_file_response_success := true,
    load_embedded_art_response_data := [7],
    network_statistics_response_entries := [] }

/-- A concrete song. -/
def sampleSong : Song := { toPB := { bytes := [1] }, urlLocalFile := "/music/x.mp3" }

/-- A pool whose every reply finished successfully with sampleMsg. -/
def sampleEnvOk : PoolEnv :=
  { sendReply := fun _ => { wait_ok := true, msg := sampleMsg },
    broadcastReplies := fun _ => [] }

/-- A pool whose every wait reports failure. -/
def sampleEnvFail : PoolEnv :=
  { sendReply := fun _ => { wait_ok := false, msg := sampleMsg },
    broadcastReplies := fun _ => [] }

/-- A pool with zero ready workers: a broadcast returns no member
replies. -/
def sampleEmptyPool : PoolEnv :=
  { sendReply := fun _ => { wait_ok := false, msg := defaultMessage },
    broadcastReplies := fun _ => [] }

/-- The entry list of the network-statistics example. -/
def exampleStatsEntries : List NetEntry :=
  [{ url := "http://a.com/x", bytes_received := 100 },
   { url := "http://a.com/y", bytes_received := 50 },
   { url := "http://b.com/z", bytes_received := 10 }]

/-! ## Claim theorems -/

/-- C1: when a member reply of a BroadcastReply resolves, the attached
closure emits Finished exactly when the resolution leaves every member
finished (count of finished members equals the member count), and the
emitted success flag is the AND-reduction of all members' success
flags. -/
theorem broadcastReply_finished_iff_all_members_finished
    (rs : List MemberState) (i : Nat) (s : Bool) :
    (broadcastOnResolve rs i s).2 =
      (if (resolveMember rs i s).all (fun r => r.is_finished) then
         some ((resolveMember rs i s).all fun r => r.is_successful)
       else none) := by
  simp only [broadcastOnResolve, memberFinishedClosure, broadcastIsFinished,
    countFinished, countSuccessful, filter_length_beq_length]

/-- C2: the per-host aggregation over the entries merged from the member
replies of the statistics broadcast gives each distinct authority a
request count equal to the number of its entries and a byte count equal
to the sum of its bytes_received values (hosts with no entry are absent
from the maps); on the example entries from http's a.com (100 and 50
bytes) and b.com (10 bytes), a.com gets 2 requests and 150 bytes and
b.com gets 1 request and 10 bytes. -/
theorem network_statistics_aggregation_per_host
    (authority : String → String) (replies : List ReplyOutcome)
    (host : String) :
    ((aggregateStatistics authority (mergedEntries replies)).1 host =
       (if ((mergedEntries replies).filter
             fun e => authority e.url == host).length = 0 then none
        else some ((mergedEntries replies).filter
             fun e => authority e.url == host).length) ∧
     (aggregateStatistics authority (mergedEntries replies)).2 host =
       (if ((mergedEntries replies).filter
             fun e => authority e.url == host).length = 0 then none
        else some ((((mergedEntries replies).filter
             fun e => authority e.url == host).map
               fun e => e.bytes_received).sum))) ∧
    ((aggregateStatistics urlAuthority exampleStatsEntries).1 "a.com" = some 2 ∧
     (aggregateStatistics urlAuthority exampleStatsEntries).2 "a.com" = some 150 ∧
     (aggregateStatistics urlAuthority exampleStatsEntries).1 "b.com" = some 1 ∧
     (aggregateStatistics urlAuthority exampleStatsEntries).2 "b.com" = some 10) := by
  constructor
  · rcases aggregate_foldl_spec authority (mergedEntries replies)
      (emptyRequests, emptyBytes) host with ⟨h1, h2⟩
    constructor
    · rw [aggregateStatistics, h1]
      by_cases h0 : ((mergedEntries replies).filter
          fun e => authority e.url == host).length = 0
      · simp [h0, emptyRequests]
      · simp [h0, emptyRequests]
    · rw [aggregateStatistics, h2]
      by_cases h0 : ((mergedEntries replies).filter
          fun e => authority e.url == host).length = 0
      · simp [h0, emptyBytes]
      · simp [h0, emptyBytes]
  · exact ⟨by decide, by decide, by decide, by decide⟩

/-- C3: a BroadcastReply over an empty member set (zero ready workers at
broadcast time) is immediately finished, its aggregate success over the
empty member set is true, and WaitForFinished returns true. -/
theorem empty_broadcast_immediately_finished_success :
    broadcastIsFinished [] = true ∧ memberFinishedClosure [] = some true ∧
    broadcastWaitForFinished [] = true :=
  ⟨rfl, rfl, rfl⟩

/-- C4 counterexample: GetNetworkStatisticsBlocking invoked on the
client's own thread completes normally (no Q_ASSERT fires), contradicting
the claim that every blocking form asserts it is off that thread. -/
theorem getNetworkStatisticsBlocking_no_assert_on_client_thread :
    GetNetworkStatisticsBlocking urlAuthority sampleEmptyPool true =
      Except.ok (emptyRequests, emptyBytes) := rfl

/-- C4 amended: each of the six per-request blocking wrappers asserts it
is not called on the client's thread (they fail the assertion whenever
they are), but GetNetworkStatisticsBlocking performs no such assertion
and completes whatever the calling thread. -/
theorem blocking_wrappers_assert_except_network_statistics
    (initFromPB : Song → SongPB → Song) (decode : List Nat → QImage)
    (env : PoolEnv) (filename : String) (song metadata : Song)
    (authority : String → String) (b : Bool) :
    ReadFileBlocking initFromPB env true filename song =
      Except.error AssertFail.assertionFailed ∧
    SaveFileBlocking env true filename metadata =
      Except.error AssertFail.assertionFailed ∧
    UpdateSongStatisticsBlocking env true metadata =
      Except.error AssertFail.assertionFailed ∧
    UpdateSongRatingBlocking env true metadata =
      Except.error AssertFail.assertionFailed ∧
    IsMediaFileBlocking env true filename =
      Except.error AssertFail.assertionFailed ∧
    LoadEmbeddedArtBlocking decode env true filename =
      Except.error AssertFail.assertionFailed ∧
    GetNetworkStatisticsBlocking authority env b =
      Except.ok (aggregateStatistics authority
        (mergedEntries (env.broadcastReplies GetNetworkStatistics.1))) :=
  ⟨rfl, rfl, rfl, rfl, rfl, rfl, rfl⟩

/-- C5: off the client's thread and whenever the wait reports the reply
finished, each blocking form returns exactly the typed result extracted
from the matching response field of the reply the pool hands back for the
corresponding async form's message: the read-file metadata initialises
the song, SaveFileBlocking returns the save-file success flag,
IsMediaFileBlocking the is-media-file success flag, the statistics and
rating wrappers their respective success flags, and
LoadEmbeddedArtBlocking decodes the embedded-art data. -/
theorem blocking_wrappers_extract_typed_results (env : PoolEnv)
    (h : ∀ m, (env.sendReply m).wait_ok = true)
    (initFromPB : Song → SongPB → Song) (decode : List Nat → QImage)
    (filename : String) (song metadata : Song) :
    ReadFileBlocking initFromPB env false filename song =
      Except.ok (initFromPB song
        (env.sendReply (ReadFile filename).1).msg.read_file_response_metadata) ∧
    SaveFileBlocking env false filename metadata =
      Except.ok (env.sendReply
        (SaveFile filename metadata).1).msg.save_file_response_success ∧
    UpdateSongStatisticsBlocking env false metadata =
      Except.ok (env.sendReply (UpdateSongStatistics
        metadata).1).msg.save_song_statistics_to_file_response_success ∧
    UpdateSongRatingBlocking env false metadata =
      Except.ok (env.sendReply (UpdateSongRating
        metadata).1).msg.save_song_rating_to_file_response_success ∧
    IsMediaFileBlocking env false filename =
      Except.ok (env.sendReply
        (IsMediaFile filename).1).msg.is_media_file_response_success ∧
    LoadEmbeddedArtBlocking decode env false filename =
      Except.ok (decode (env.sendReply
        (LoadEmbeddedArt filename).1).msg.load_embedded_art_response_data) := by
  refine ⟨?_, ?_, ?_, ?_, ?_, ?_⟩ <;>
    simp [ReadFileBlocking, SaveFileBlocking, UpdateSongStatisticsBlocking,
      UpdateSongRatingBlocking, IsMediaFileBlocking, LoadEmbeddedArtBlocking, h]

/-- C5 witness: on a concrete pool whose replies all finish with a
successful save-file response, SaveFileBlocking returns true. -/
theorem blocking_wrappers_extract_typed_results_witness :
    (∀ m, (sampleEnvOk.sendReply m).wait_ok = true) ∧
    SaveFileBlocking sampleEnvOk false "f.mp3" sampleSong = Except.ok true := by
  have h : ∀ m, (sampleEnvOk.sendReply m).wait_ok = true := fun _ => rfl
  refine ⟨h, ?_⟩
  have hc := (blocking_wrappers_extract_typed_results sampleEnvOk h
      (fun s _ => s) (fun d => some d) "f.mp3" sampleSong sampleSong).2.1
  rw [hc]
  rfl

/-- C6: GetNetworkStatistics builds the zero-argument network-statistics
request and sends it with the pool's broadcast operation, while every
other request kind is sent point-to-point with SendMessageWithReply. -/
theorem network_statistics_is_the_only_broadcast :
    GetNetworkStatistics = (RequestPayload.networkStatisticsRequest,
      DispatchKind.broadcastMessageWithReply) ∧
    (∀ filename, (ReadFile filename).2 = DispatchKind.sendMessageWithReply) ∧
    (∀ filename metadata,
      (SaveFile filename metadata).2 = DispatchKind.sendMessageWithReply) ∧
    (∀ metadata,
      (UpdateSongStatistics metadata).2 = DispatchKind.sendMessageWithReply) ∧
    (∀ metadata,
      (UpdateSongRating metadata).2 = DispatchKind.sendMessageWithReply) ∧
    (∀ filename, (IsMediaFile filename).2 = DispatchKind.sendMessageWithReply) ∧
    (∀ filename,
      (LoadEmbeddedArt filename).2 = DispatchKind.sendMessageWithReply) ∧
    (∀ u t sz mt ah,
      (ReadCloudFile u t sz mt ah).2 = DispatchKind.sendMessageWithReply) :=
  ⟨rfl, fun _ => rfl, fun _ _ => rfl, fun _ => rfl, fun _ => rfl, fun _ => rfl,
   fun _ => rfl, fun _ _ _ _ _ => rfl⟩

/-- C7: the WorkerFailedToStart handler never aborts, leaves the client
state exactly as it was, and only logs an error message that names the
fixed worker executable, clementine-tagreader. -/
theorem workerFailedToStart_logs_and_preserves_state
    (s : TagReaderClientState) :
    (∃ log, WorkerFailedToStart s = Except.ok (s, log) ∧
      kWorkerExecutableName ∈ log) ∧
    kWorkerExecutableName = "clementine-tagreader" :=
  ⟨⟨_, rfl, List.mem_cons_of_mem _ (List.mem_cons_self _ _)⟩, rfl⟩

/-- C8: the member list of a BroadcastReply is exactly the reply list
given to the constructor, and none of the operations that run against a
BroadcastReply (a member resolving, the replies accessor, WaitForFinished
or IsFinished) changes the object, so nothing is ever added to, removed
from or reordered in its member list. -/
theorem broadcastReply_members_fixed_at_construction
    (msg : RequestPayload) (replies : List Nat) (br : BroadcastReplyObj)
    (env : Nat → MemberState) (op : BroadcastOp) :
    (mkBroadcastReply msg replies).members = replies ∧
    (applyBroadcastOp br env op).1 = br :=
  ⟨rfl, by cases op <;> rfl⟩

/-- C9: whenever the wait reports the reply not finished successfully,
each boolean blocking wrapper returns its initial ret = false and
LoadEmbeddedArtBlocking returns the default-constructed null image;
nothing other than this default result is surfaced. -/
theorem blocking_wrappers_default_on_failed_wait (env : PoolEnv)
    (h : ∀ m, (env.sendReply m).wait_ok = false)
    (decode : List Nat → QImage) (filename : String) (metadata : Song) :
    SaveFileBlocking env false filename metadata = Except.ok false ∧
    UpdateSongStatisticsBlocking env false metadata = Except.ok false ∧
    UpdateSongRatingBlocking env false metadata = Except.ok false ∧
    IsMediaFileBlocking env false filename = Except.ok false ∧
    LoadEmbeddedArtBlocking decode env false filename =
      Except.ok (none : QImage) := by
  refine ⟨?_, ?_, ?_, ?_, ?_⟩ <;>
    simp [SaveFileBlocking, UpdateSongStatisticsBlocking,
      UpdateSongRatingBlocking, IsMediaFileBlocking, LoadEmbeddedArtBlocking, h]

/-- C9 witness: on a concrete pool whose waits all fail,
IsMediaFileBlocking returns false. -/
theorem blocking_wrappers_default_on_failed_wait_witness :
    (∀ m, (sampleEnvFail.sendReply m).wait_ok = false) ∧
    IsMediaFileBlocking sampleEnvFail false "f.mp3" = Except.ok false := by
  have h : ∀ m, (sampleEnvFail.sendReply m).wait_ok = false := fun _ => rfl
  exact ⟨h, (blocking_wrappers_default_on_failed_wait sampleEnvFail h
    (fun d => some d) "f.mp3" sampleSong).2.2.2.1⟩

/-- C10: if the wait on the read-file reply reports failure,
ReadFileBlocking hands back the caller's Song completely unchanged. -/
theorem readFileBlocking_song_unchanged_on_failed_wait
    (initFromPB : Song → SongPB → Song) (env : PoolEnv) (filename : String)
    (song : Song)
    (h : (env.sendReply (ReadFile filename).1).wait_ok = false) :
    ReadFileBlocking initFromPB env false filename song = Except.ok song := by
  simp [ReadFileBlocking, h]

/-- C10 witness: on a concrete pool whose wait fails, ReadFileBlocking
returns the sample song untouched. -/
theorem readFileBlocking_song_unchanged_on_failed_wait_witness :
    (sampleEnvFail.sendReply (ReadFile "f.mp3").1).wait_ok = false ∧
    ReadFileBlocking (fun s _ => s) sampleEnvFail false "f.mp3" sampleSong =
      Except.ok sampleSong :=
  ⟨rfl, readFileBlocking_song_unchanged_on_failed_wait (fun s _ => s)
    sampleEnvFail "f.mp3" sampleSong rfl⟩
